import Mathlib

/-!
Verification model for the LinkedIn Easy Apply automation engine
(src/job_search/scripts/auto_apply_linkedin.py).

The Python functions `answer_field`, `_gemini_form_answer` and
`apply_to_job` are shallowly embedded as pure Lean functions over an
explicit environment describing the page state (which buttons exist,
whether the modal opens, what the form groups contain) and an oracle for
the generative service.  Browser side effects are recorded as an explicit
trace of effects; exceptions raised by the environment are modelled with
`Except`.
-/

namespace ClawdBot

/-! ## Python string primitives

The source manipulates strings with `.lower()`, `.strip()`, the `in`
substring operator and slicing.  We model those operations over the
character list of a Lean `String`.  `lowerChar` is ASCII lowercasing,
which is what `str.lower()` does on the ASCII labels and keys involved.
-/

/-- ASCII lowercasing of one character, as a transparent table. -/
def lowerChar (c : Char) : Char :=
  match c with
  | 'A' => 'a' | 'B' => 'b' | 'C' => 'c' | 'D' => 'd' | 'E' => 'e'
  | 'F' => 'f' | 'G' => 'g' | 'H' => 'h' | 'I' => 'i' | 'J' => 'j'
  | 'K' => 'k' | 'L' => 'l' | 'M' => 'm' | 'N' => 'n' | 'O' => 'o'
  | 'P' => 'p' | 'Q' => 'q' | 'R' => 'r' | 'S' => 's' | 'T' => 't'
  | 'U' => 'u' | 'V' => 'v' | 'W' => 'w' | 'X' => 'x' | 'Y' => 'y'
  | 'Z' => 'z'
  | c => c

/-- Model of Python `str.lower()`. -/
def lowerStr (s : String) : String := ⟨s.data.map lowerChar⟩

/-- Characters removed by Python `str.strip()`. -/
def isSpaceChar (c : Char) : Bool :=
  c = ' ' || c = '\t' || c = '\n' || c = '\r' || c = '\x0b' || c = '\x0c'

/-- Model of Python `str.strip()` on a character list. -/
def stripChars (l : List Char) : List Char :=
  ((l.dropWhile isSpaceChar).reverse.dropWhile isSpaceChar).reverse

/-- Model of Python `str.strip()`. -/
def stripStr (s : String) : String := ⟨stripChars s.data⟩

/-- Decides whether `pat` occurs at the head of `l`. -/
def leadsWith : List Char → List Char → Bool
  | [], _ => true
  | _ :: _, [] => false
  | a :: as, b :: bs => a = b && leadsWith as bs

/-- Decides whether `pat` occurs contiguously inside `l`. -/
def charsContain (pat : List Char) : List Char → Bool
  | [] => pat.isEmpty
  | c :: rest => leadsWith pat (c :: rest) || charsContain pat rest

/-- Model of the Python substring test `pat in hay`. -/
def strContains (hay pat : String) : Bool := charsContain pat.data hay.data

/-- Model of Python slicing `s[:n]`. -/
def pyTake (n : Nat) (s : String) : String := ⟨s.data.take n⟩

/-- Model of Python `len(s)`. -/
def pyLen (s : String) : Nat := s.data.length

/-! ## Generative fallback (`_call_gemini`, `_gemini_form_answer`)

The REST call is abstracted as an oracle from the question text to
`Option String` (`none` models any failure inside `_call_gemini`, which
returns `None` there; the prompt wraps the question injectively, so the
oracle may be keyed by the question).  The per process cache
`_GEMINI_FORM_CACHE` is threaded explicitly as an association list.
-/

/-- Environment of the generative fallback: whether `GEMINI_API_KEY` is
set, and the response of `_call_gemini` for each question. -/
structure GeminiEnv where
  apiKey : Bool
  oracle : String → Option String

/-- The `_GEMINI_FORM_CACHE` dictionary. -/
abbrev Cache := List (String × String)

/-- Lookup in the cache dictionary. -/
def cacheFind (q : String) : Cache → Option String
  | [] => none
  | (k, v) :: rest => if k = q then some v else cacheFind q rest

/-- Model of `_gemini_form_answer` (auto_apply_linkedin.py lines 193-215).
Returns the answer, the updated cache, and whether a generative request
was actually issued on this call.  Note the source stores the answer in
the cache only when it is truthy (non empty). -/
def gemini_form_answer (env : GeminiEnv) (cache : Cache) (question : String) :
    Option String × Cache × Bool :=
  if env.apiKey = false then (none, cache, false)
  else
    match cacheFind question cache with
    | some a => (some a, cache, false)
    | none =>
      match env.oracle question with
      | some a => (some a, (if a ≠ "" then (question, a) :: cache else cache), true)
      | none => (none, cache, true)

/-! ## The rule table and `answer_field`

`COMMON_ANSWERS` (auto_apply_linkedin.py lines 219-258) is a Python dict
whose iteration order is its insertion order; we embed it as the list of
key/value pairs in source order.  The two phone values come from
`profile.json`, which is not part of the sources, so the table is
parametrised by that string.
-/

/-- The ordered rule table `COMMON_ANSWERS` (lines 219-258). -/
def COMMON_ANSWERS (phone : String) : List (String × String) :=
  [ ("phone", phone),
    ("mobile", phone),
    ("city", "New Delhi"),
    ("location", "New Delhi, India"),
    ("current location", "New Delhi, India"),
    ("authorised", "No"),
    ("authorized", "No"),
    ("right to work", "No"),
    ("visa", "Yes, I require sponsorship"),
    ("sponsorship", "Yes"),
    ("require sponsorship", "Yes"),
    ("years of experience", "1"),
    ("how many years", "1"),
    ("notice period", "30"),
    ("when can you start", "30 days"),
    ("available", "30 days notice"),
    ("salary expectation", "Open to discussion"),
    ("expected salary", "Open to discussion"),
    ("desired salary", "Open to discussion"),
    ("linkedin", "https://linkedin.com/in/krish-sawhney-824416261"),
    ("github", "https://github.com/krishs05"),
    ("portfolio", "https://bertram.co.in"),
    ("website", "https://bertram.co.in"),
    ("degree", "Yes"),
    ("bachelor", "Yes"),
    ("legally", "No"),
    ("18 years", "Yes"),
    ("full time", "Yes"),
    ("willing to relocate", "Yes"),
    ("hybrid", "Yes"),
    ("remote", "Yes") ]

/-- One option element of a select control: its `inner_text()` and its
`value` attribute. -/
structure OptionEl where
  text : String
  value : String
deriving DecidableEq, Repr

/-- A form control as `answer_field` observes it: the lowercased tag name
returned by the `el.tagName.toLowerCase()` evaluation, the raw `type`
attribute (`none` when absent), the option elements (used when the tag is
`select`) and the checked state (used for checkboxes). -/
structure InputEl where
  tag : String
  typeAttr : Option String := none
  options : List OptionEl := []
  checked : Bool := false
deriving DecidableEq, Repr

/-- A concrete write performed on a control by `answer_field`:
`select_option(value=...)`, `select_option(index=...)`, `check()` or
`fill(...)`. -/
inductive FieldAction
  | selectValue (v : String)
  | selectIndex (i : Nat)
  | check
  | fill (s : String)
deriving DecidableEq, Repr

/-- Model of `input_el.get_attribute("type") or "text"` (line 280): an
absent or empty attribute degrades to `"text"`.  The source does not
lowercase it at this call site. -/
def typeOrText (el : InputEl) : String :=
  match el.typeAttr with
  | some s => if s = "" then "text" else s
  | none => "text"

/-- Does `opt` satisfy the select match test of line 273:
`val.lower() in opt_text or opt_text in val.lower()`, where `opt_text`
is the lowercased option text? -/
def optQualifies (val : String) (opt : OptionEl) : Bool :=
  strContains (lowerStr opt.text) (lowerStr val) ||
    strContains (lowerStr val) (lowerStr opt.text)

/-- The body of the matched-rule branch of `answer_field` (lines 266-290),
applying rule value `val` to the control.  Returns `none` when the branch
falls through without returning (tag not select/input/textarea), in which
case the Python loop proceeds to the next matching rule; otherwise
`some (returnValue, performedWrite)`. -/
def applyRule (val : String) (el : InputEl) : Option (Bool × Option FieldAction) :=
  if el.tag = "select" then
    match el.options.find? (optQualifies val) with
    | some opt => some (true, some (.selectValue opt.value))
    | none => some (true, some (.selectIndex 1))
  else if el.tag = "input" ∨ el.tag = "textarea" then
    let t := typeOrText el
    if t = "checkbox" then
      some (true,
        if (lowerStr val = "yes" ∨ lowerStr val = "true" ∨ lowerStr val = "1") ∧
            el.checked = false
        then some .check else none)
    else if t = "radio" then
      some (false, none)
    else
      some (true, some (.fill val))
  else
    none

/-- The rule loop of `answer_field` (lines 264-292): walk the ordered
table, and on the first key contained in the lowercased stripped label
run `applyRule`; a fall-through (unrecognised tag) continues with later
rules exactly as the Python `for` does. -/
def ruleLoop (ll : String) (el : InputEl) : List (String × String) → Option (Bool × Option FieldAction)
  | [] => none
  | (k, v) :: rest =>
    if strContains ll k then
      match applyRule v el with
      | some r => some r
      | none => ruleLoop ll el rest
    else
      ruleLoop ll el rest

/-- Result of one `answer_field` call: the Boolean the function returns,
the write performed on the control (if any), the updated generative
cache, and whether a generative request was issued. -/
structure AnswerResult where
  filled : Bool
  action : Option FieldAction
  cache : Cache
  geminiCalled : Bool
deriving Repr

/-- Model of `answer_field` (auto_apply_linkedin.py lines 261-307).
First the ordered rule table is tried against
`label_text.lower().strip()`; if no rule fires, the generative fallback
runs only for configured keys, labels whose stripped form has more than
3 characters, and textarea or text-type input controls, filling the
answer truncated to 2000 characters. -/
def answer_field (phone : String) (env : GeminiEnv) (cache : Cache)
    (labelText : String) (el : InputEl) : AnswerResult :=
  match ruleLoop (stripStr (lowerStr labelText)) el (COMMON_ANSWERS phone) with
  | some (ret, act) => ⟨ret, act, cache, false⟩
  | none =>
    if env.apiKey ∧ stripStr labelText ≠ "" ∧ pyLen (stripStr labelText) > 3 then
      if el.tag = "textarea" ∨ (el.tag = "input" ∧
          (lowerStr (typeOrText el) = "text" ∨ lowerStr (typeOrText el) = "")) then
        match gemini_form_answer env cache (stripStr labelText) with
        | (some a, cache2, issued) =>
          if a ≠ "" then ⟨true, some (.fill (pyTake 2000 a)), cache2, issued⟩
          else ⟨false, none, cache2, issued⟩
        | (none, cache2, issued) => ⟨false, none, cache2, issued⟩
      else ⟨false, none, cache, false⟩
    else ⟨false, none, cache, false⟩

/-! ## Radio group handling (apply_to_job lines 509-526)

Inside the step loop, for each form group that has radio inputs and a
non empty group label, the first rule whose key occurs in the lowercased
group label is selected; then the first radio whose own label text
overlaps the rule value (substring in either direction) is clicked,
falling back to the first radio of the group when none overlaps.  Note
the group label is lowercased but not stripped at this call site
(line 512).
-/

/-- A radio input of a group: the text of its associated
`label[for=id]` element, or `none` when that query finds nothing. -/
structure RadioEl where
  label : Option String
deriving DecidableEq, Repr

/-- First rule of the ordered table whose key occurs in `ll`
(the lowercased group label). -/
def findRule (phone : String) (ll : String) : Option (String × String) :=
  (COMMON_ANSWERS phone).find? (fun kv => strContains ll kv.1)

/-- The overlap test of line 521: `val.lower() in rl or rl in val.lower()`
for a radio that has a label; a radio without a label is skipped. -/
def radioOverlap (val : String) (r : RadioEl) : Bool :=
  match r.label with
  | some t => strContains (lowerStr t) (lowerStr val) ||
      strContains (lowerStr val) (lowerStr t)
  | none => false

/-- Index of the radio clicked for rule value `val` (lines 515-525):
the first overlapping radio, else index 0 (the for-else fallback
`radios[0].click()`). -/
def radioPick (val : String) (radios : List RadioEl) : Nat :=
  match radios.findIdx? (radioOverlap val) with
  | some i => i
  | none => 0

/-- Model of the radio block of the step loop (lines 509-526): returns
the index of the radio that gets clicked, or `none` when the block does
not click (no radios, empty label, or no rule key in the label). -/
def handleRadios (phone : String) (labelText : String) (radios : List RadioEl) : Option Nat :=
  if radios ≠ [] ∧ labelText ≠ "" then
    match findRule phone (lowerStr labelText) with
    | some kv => some (radioPick kv.2 radios)
    | none => none
  else none

/-! ## The apply_to_job state machine (lines 378-608)

The browser page is abstracted as an environment recording, for each
decision the code reads from the page, the value that read produces:
whether the Easy Apply button is found (by the JS scan or the selector
fallback), whether a dismiss button exists for `_CLOSE_MODAL_JS`,
whether the modal opens within its timeout, whether it has form content,
and the contents of the form at every step.  Side effects on the browser
are collected in an effect trace; the step indices the loop visits are
returned as a list.  Unexpected faults from the browser layer are
modelled as an optional exception raised by `page.goto`, and a possible
failure of the final log write.
-/

/-- Exceptions of the Python model: the Playwright timeout class and a
generic `Exception` carrying `str(e)`. -/
inductive PyExc
  | pwTimeout
  | exc (msg : String)
deriving DecidableEq, Repr

/-- Navigation action classified by `_FIND_NAV_BTN_JS` (lines 311-362). -/
inductive NavAction
  | submit
  | review
  | next
deriving DecidableEq, Repr

/-- One logical form group of a step (lines 492-505): the label element
text (`none` when no label element is found), the non-hidden non-file
inputs, and the radio inputs. -/
structure Group where
  label : Option String := none
  inputs : List InputEl := []
  radios : List RadioEl := []

/-- The page content at one step of the loop: the number of
`input[type=file]` controls, the form groups, whether a cover letter
textarea is matched, and the result of the navigation button scan
(`none` when no actionable button is classified). -/
structure StepPage where
  fileInputs : Nat := 0
  groups : List Group := []
  hasCoverTextarea : Bool := false
  nav : Option NavAction := none

/-- The environment of one `apply_to_job` call. -/
structure Env where
  phone : String := ""
  genv : GeminiEnv := ⟨false, fun _ => none⟩
  gotoFault : Option PyExc := none
  entryJS : Bool := true
  entrySelector : Bool := false
  dismissBtn : Bool := false
  modalOpens : Bool := true
  hasFormContent : Bool := true
  steps : Nat → StepPage := fun _ => {}
  cvPresent : Bool := false
  coverLetter : String := ""
  logWriteFault : Option PyExc := none

/-- Browser side effects recorded by the model. -/
inductive Effect
  | gotoPage
  | entryClick
  | dismissClick
  | navClick (a : NavAction)
  | uploadCV
  | fieldAct (a : FieldAction)
  | radioClick (i : Nat)
  | coverFill
deriving DecidableEq, Repr

/-- Effects of `page.evaluate(_CLOSE_MODAL_JS)`: a click on the dismiss
button when one exists (lines 364-374). -/
def closeFx (env : Env) : List Effect :=
  if env.dismissBtn then [.dismissClick] else []

/-- Model of the inner input loop of a group (lines 503-507): call
`answer_field` on each control, threading the generative cache and
recording each performed write. -/
def processInputs (env : Env) (labelText : String) :
    Cache → List InputEl → Cache × List Effect
  | c, [] => (c, [])
  | c, el :: rest =>
    ((processInputs env labelText (answer_field env.phone env.genv c labelText el).cache rest).1,
      (match (answer_field env.phone env.genv c labelText el).action with
        | some a => [Effect.fieldAct a]
        | none => []) ++
      (processInputs env labelText (answer_field env.phone env.genv c labelText el).cache rest).2)

/-- Model of the body run for one form group (lines 496-528): label
extraction, the input loop, then the radio block. -/
def processGroup (env : Env) (c : Cache) (g : Group) : Cache × List Effect :=
  ((processInputs env (g.label.getD "") c g.inputs).1,
    (processInputs env (g.label.getD "") c g.inputs).2 ++
    (match handleRadios env.phone (g.label.getD "") g.radios with
      | some i => [Effect.radioClick i]
      | none => []))

/-- Model of the loop over form groups. -/
def processGroups (env : Env) : Cache → List Group → Cache × List Effect
  | c, [] => (c, [])
  | c, g :: rest =>
    ((processGroups env (processGroup env c g).1 rest).1,
      (processGroup env c g).2 ++ (processGroups env (processGroup env c g).1 rest).2)

/-- Model of the fill part of one step (lines 480-543): CV upload for
each file input when the CV file exists, the group loop, and the cover
letter textarea. -/
def fillStep (env : Env) (page : StepPage) (c : Cache) : Cache × List Effect :=
  ((processGroups env c page.groups).1,
    (if env.cvPresent then List.replicate page.fileInputs Effect.uploadCV else []) ++
    (processGroups env c page.groups).2 ++
    (if page.hasCoverTextarea ∧ env.coverLetter ≠ "" then [Effect.coverFill] else []))

/-- Result of the `for step in range(10)` loop: the value returned from
inside the loop (`none` when the loop ended by `break` or exhaustion,
both of which continue at line 588), the final cache, the effect trace,
and the list of step indices whose iteration was entered. -/
def stepLoop (env : Env) : Nat → Nat → Cache → Option String × Cache × List Effect × List Nat
  | 0, _, c => (none, c, [], [])
  | fuel + 1, k, c =>
    match (env.steps k).nav with
    | none => (none, (fillStep env (env.steps k) c).1, (fillStep env (env.steps k) c).2, [k])
    | some .submit =>
      (some "applied", (fillStep env (env.steps k) c).1,
        (fillStep env (env.steps k) c).2 ++ [.navClick .submit] ++ closeFx env, [k])
    | some .review =>
      ((stepLoop env fuel (k + 1) (fillStep env (env.steps k) c).1).1,
        (stepLoop env fuel (k + 1) (fillStep env (env.steps k) c).1).2.1,
        (fillStep env (env.steps k) c).2 ++ [.navClick .review] ++
          (stepLoop env fuel (k + 1) (fillStep env (env.steps k) c).1).2.2.1,
        k :: (stepLoop env fuel (k + 1) (fillStep env (env.steps k) c).1).2.2.2)
    | some .next =>
      ((stepLoop env fuel (k + 1) (fillStep env (env.steps k) c).1).1,
        (stepLoop env fuel (k + 1) (fillStep env (env.steps k) c).1).2.1,
        (fillStep env (env.steps k) c).2 ++ [.navClick .next] ++
          (stepLoop env fuel (k + 1) (fillStep env (env.steps k) c).1).2.2.1,
        k :: (stepLoop env fuel (k + 1) (fillStep env (env.steps k) c).1).2.2.2)

/-- Outcome of the `try` body of `apply_to_job` together with the effect
trace and visited step indices. -/
structure BodyOut where
  result : Except PyExc String
  effects : List Effect
  visited : List Nat

/-- Model of the `try` body of `apply_to_job` (lines 385-590): goto,
entry detection (JS scan, then selector fallback, else skip), the dry
run early return, the modal wait, the form content check, and the ten
step loop. -/
def applyBody (env : Env) (dryRun : Bool) : BodyOut :=
  match env.gotoFault with
  | some e => ⟨.error e, [.gotoPage], []⟩
  | none =>
    if env.entryJS = false ∧ env.entrySelector = false then
      ⟨.ok "skipped", [.gotoPage], []⟩
    else
      -- the entry button is clicked, by the JS handle or the fallback element
      if dryRun then
        ⟨.ok "dry_run", [.gotoPage, .entryClick] ++ closeFx env, []⟩
      else if env.modalOpens = false then
        ⟨.ok "skipped", [.gotoPage, .entryClick], []⟩
      else if env.hasFormContent = false then
        ⟨.ok "skipped", [.gotoPage, .entryClick], []⟩
      else
        match (stepLoop env 10 0 []).1 with
        | some s =>
          ⟨.ok s, [.gotoPage, .entryClick] ++ (stepLoop env 10 0 []).2.2.1,
            (stepLoop env 10 0 []).2.2.2⟩
        | none =>
          ⟨.ok "error:no_submit_reached",
            [.gotoPage, .entryClick] ++ (stepLoop env 10 0 []).2.2.1 ++ closeFx env,
            (stepLoop env 10 0 []).2.2.2⟩

/-- Model of the two `except` clauses of `apply_to_job` (lines 592-605):
a Playwright timeout becomes `error:timeout` and any other exception
becomes `error:` plus the message truncated to 80 characters, each with
a guarded best-effort modal close. -/
def handleExc (env : Env) (b : BodyOut) : BodyOut :=
  match b.result with
  | .ok _ => b
  | .error .pwTimeout =>
    ⟨.ok "error:timeout", b.effects ++ closeFx env, b.visited⟩
  | .error (.exc m) =>
    ⟨.ok ("error:" ++ pyTake 80 m), b.effects ++ closeFx env, b.visited⟩

/-- Model of `apply_to_job` (lines 378-608): the body, the two except
clauses, then the finally block (lines 606-608), whose unguarded
`log_file.write_text` — when the write itself raises — replaces the
computed outcome with an exception that escapes the function. -/
def apply_to_job (env : Env) (dryRun : Bool) : BodyOut :=
  match env.logWriteFault with
  | some e =>
    ⟨.error e, (handleExc env (applyBody env dryRun)).effects,
      (handleExc env (applyBody env dryRun)).visited⟩
  | none => handleExc env (applyBody env dryRun)

/-! ## Supporting lemmas -/

theorem leadsWith_length {p l : List Char} (h : leadsWith p l = true) :
    p.length ≤ l.length := by
  induction p generalizing l with
  | nil => simp
  | cons a as ih =>
    cases l with
    | nil => simp [leadsWith] at h
    | cons b bs =>
      simp only [leadsWith, Bool.and_eq_true] at h
      simpa using ih h.2

theorem charsContain_length {p l : List Char} (h : charsContain p l = true) :
    p.length ≤ l.length := by
  induction l with
  | nil =>
    simp only [charsContain, List.isEmpty_iff] at h
    simp [h]
  | cons c rest ih =>
    simp only [charsContain, Bool.or_eq_true] at h
    rcases h with h | h
    · exact leadsWith_length h
    · exact Nat.le_trans (ih h) (by simp)

theorem isSpaceChar_lowerChar (c : Char) : isSpaceChar (lowerChar c) = isSpaceChar c := by
  unfold lowerChar
  split <;> rfl

theorem stripChars_map_lowerChar (l : List Char) :
    stripChars (l.map lowerChar) = (stripChars l).map lowerChar := by
  have hfun : (isSpaceChar ∘ lowerChar) = isSpaceChar := by
    funext c; exact isSpaceChar_lowerChar c
  unfold stripChars
  rw [List.dropWhile_map, hfun, ← List.map_reverse, List.dropWhile_map, hfun,
    ← List.map_reverse]

theorem length_strip_lower (s : String) :
    (stripStr (lowerStr s)).data.length = (stripStr s).data.length := by
  show (stripChars (s.data.map lowerChar)).length = (stripChars s.data).length
  rw [stripChars_map_lowerChar, List.length_map]

/-- The keys of the rule table, which do not depend on the profile. -/
def COMMON_KEYS : List String :=
  ["phone", "mobile", "city", "location", "current location", "authorised",
   "authorized", "right to work", "visa", "sponsorship", "require sponsorship",
   "years of experience", "how many years", "notice period", "when can you start",
   "available", "salary expectation", "expected salary", "desired salary",
   "linkedin", "github", "portfolio", "website", "degree", "bachelor", "legally",
   "18 years", "full time", "willing to relocate", "hybrid", "remote"]

theorem commonAnswers_map_fst (phone : String) :
    (COMMON_ANSWERS phone).map Prod.fst = COMMON_KEYS := rfl

theorem commonAnswers_key_long (phone : String) :
    ∀ kv ∈ COMMON_ANSWERS phone, 4 ≤ kv.1.data.length := by
  intro kv h
  have hmem : kv.1 ∈ (COMMON_ANSWERS phone).map Prod.fst := List.mem_map_of_mem _ h
  rw [commonAnswers_map_fst] at hmem
  have hall : ∀ k ∈ COMMON_KEYS, 4 ≤ k.data.length := by decide
  exact hall kv.1 hmem

theorem ruleLoop_none_of_no_match {ll : String} {el : InputEl}
    {rules : List (String × String)}
    (h : ∀ kv ∈ rules, strContains ll kv.1 = false) :
    ruleLoop ll el rules = none := by
  induction rules with
  | nil => rfl
  | cons kv rest ih =>
    obtain ⟨k0, v0⟩ := kv
    have hk := h (k0, v0) (by simp)
    simp only [ruleLoop, hk, Bool.false_eq_true, if_false]
    exact ih fun x hx => h x (by simp [hx])

theorem ruleLoop_none_of_short {ll : String} {el : InputEl} {phone : String}
    (h : ll.data.length ≤ 3) :
    ruleLoop ll el (COMMON_ANSWERS phone) = none := by
  apply ruleLoop_none_of_no_match
  intro kv hkv
  cases hc : strContains ll kv.1 with
  | false => rfl
  | true =>
    exfalso
    have h4 := commonAnswers_key_long phone kv hkv
    have hlen := charsContain_length (p := kv.1.data) (l := ll.data) hc
    omega

theorem applyRule_isSome (v : String) (el : InputEl)
    (h : el.tag = "select" ∨ el.tag = "input" ∨ el.tag = "textarea") :
    ∃ r, applyRule v el = some r := by
  unfold applyRule
  rcases h with h | h | h <;> rw [h]
  · rw [if_pos rfl]
    cases el.options.find? (optQualifies v) with
    | none => exact ⟨_, rfl⟩
    | some o => exact ⟨_, rfl⟩
  · rw [if_neg (by decide), if_pos (Or.inl rfl)]
    by_cases ht : typeOrText el = "checkbox"
    · rw [if_pos ht]; exact ⟨_, rfl⟩
    · rw [if_neg ht]
      by_cases hr : typeOrText el = "radio"
      · rw [if_pos hr]; exact ⟨_, rfl⟩
      · rw [if_neg hr]; exact ⟨_, rfl⟩
  · rw [if_neg (by decide), if_pos (Or.inr rfl)]
    by_cases ht : typeOrText el = "checkbox"
    · rw [if_pos ht]; exact ⟨_, rfl⟩
    · rw [if_neg ht]
      by_cases hr : typeOrText el = "radio"
      · rw [if_pos hr]; exact ⟨_, rfl⟩
      · rw [if_neg hr]; exact ⟨_, rfl⟩

theorem ruleLoop_eq_of_find? {ll : String} {el : InputEl}
    {rules : List (String × String)} {k v : String} {r : Bool × Option FieldAction}
    (hf : rules.find? (fun kv => strContains ll kv.1) = some (k, v))
    (ha : applyRule v el = some r) :
    ruleLoop ll el rules = some r := by
  induction rules with
  | nil => simp at hf
  | cons kv rest ih =>
    obtain ⟨k0, v0⟩ := kv
    rw [List.find?_cons] at hf
    cases hm : strContains ll (k0, v0).1 with
    | true =>
      rw [hm] at hf
      simp only [Option.some.injEq] at hf
      rw [Prod.mk.injEq] at hf
      obtain ⟨hf1, hf2⟩ := hf
      subst hf1
      subst hf2
      simp only [ruleLoop, hm, if_true, ha]
    | false =>
      rw [hm] at hf
      simp only [ruleLoop, hm, Bool.false_eq_true, if_false]
      exact ih hf

theorem find?_of_get? {α} (p : α → Bool) (l : List α) (i : Nat) (x : α)
    (hg : l.get? i = some x) (hp : p x = true) :
    ∃ y i0, l.find? p = some y ∧ i0 ≤ i ∧ l.get? i0 = some y ∧ p y = true := by
  induction l generalizing i with
  | nil => simp at hg
  | cons a t ih =>
    cases hpa : p a with
    | true =>
      exact ⟨a, 0, by simp [List.find?_cons, hpa], Nat.zero_le _, by simp, hpa⟩
    | false =>
      cases i with
      | zero =>
        simp only [List.get?_cons_zero, Option.some.injEq] at hg
        rw [hg] at hpa
        rw [hpa] at hp
        exact absurd hp (by simp)
      | succ n =>
        simp only [List.get?_cons_succ] at hg
        obtain ⟨y, i0, h1, h2, h3, h4⟩ := ih n hg
        refine ⟨y, i0 + 1, ?_, by omega, ?_, h4⟩
        · rw [List.find?_cons, hpa]
          exact h1
        · rw [List.get?_cons_succ]
          exact h3

theorem answer_field_of_ruleLoop_some {phone : String} {genv : GeminiEnv}
    {c : Cache} {label : String} {el : InputEl} {ret : Bool} {act : Option FieldAction}
    (h : ruleLoop (stripStr (lowerStr label)) el (COMMON_ANSWERS phone) = some (ret, act)) :
    answer_field phone genv c label el = ⟨ret, act, c, false⟩ := by
  unfold answer_field
  rw [h]

theorem stepLoop_some_applied (env : Env) :
    ∀ fuel k c s, (stepLoop env fuel k c).1 = some s → s = "applied" := by
  intro fuel
  induction fuel with
  | zero => intro k c s h; simp [stepLoop] at h
  | succ n ih =>
    intro k c s h
    unfold stepLoop at h
    rcases hnav : (env.steps k).nav with _ | a
    · rw [hnav] at h; simp at h
    · cases a
      · rw [hnav] at h
        simp at h
        exact h.symm
      · rw [hnav] at h
        exact ih (k + 1) _ s h
      · rw [hnav] at h
        exact ih (k + 1) _ s h

theorem stepLoop_nonsubmit (env : Env) :
    ∀ fuel k c,
      (∀ j, k ≤ j → j < k + fuel →
        (env.steps j).nav = some .review ∨ (env.steps j).nav = some .next) →
      (stepLoop env fuel k c).1 = none ∧
      (stepLoop env fuel k c).2.2.2 = List.range' k fuel := by
  intro fuel
  induction fuel with
  | zero => intro k c _; exact ⟨rfl, rfl⟩
  | succ n ih =>
    intro k c hnav
    have hk := hnav k (Nat.le_refl k) (by omega)
    have hrest : ∀ j, k + 1 ≤ j → j < (k + 1) + n →
        (env.steps j).nav = some .review ∨ (env.steps j).nav = some .next := by
      intro j h1 h2
      exact hnav j (by omega) (by omega)
    obtain ⟨ih1, ih2⟩ := ih (k + 1) (fillStep env (env.steps k) c).1 hrest
    constructor
    · unfold stepLoop
      rcases hk with hk | hk <;> rw [hk] <;> exact ih1
    · unfold stepLoop
      rcases hk with hk | hk <;> rw [hk] <;>
        · show k :: (stepLoop env n (k + 1) (fillStep env (env.steps k) c).1).2.2.2 =
            List.range' k (n + 1)
          rw [ih2]
          rfl

/-! ## Claim C1 -/

/-- Environment of a job page whose Easy Apply form never shows any
navigation button at any step. -/
def envNoButtons : Env := { steps := fun _ => { nav := none } }

/-- Environment of a job page whose form shows a Next button at every
step and never a Submit button. -/
def envAllNext : Env := { steps := fun _ => { nav := some .next } }

/-- C1, counterexample: a form that never exposes a submit-classified
button but also exposes no navigation button at all makes the step loop
stop after a single iteration (the `break` of line 553), not after 10,
while still returning error:no_submit_reached — refuting *exactly
maxSteps iterations, never fewer*. -/
theorem c1_counterexample :
    (∀ st, (envNoButtons.steps st).nav ≠ some NavAction.submit) ∧
    (apply_to_job envNoButtons false).result = Except.ok "error:no_submit_reached" ∧
    (apply_to_job envNoButtons false).visited = [0] ∧
    (apply_to_job envNoButtons false).visited.length ≠ 10 :=
  ⟨fun _ h => Option.noConfusion h, rfl, rfl, by decide⟩

/-- C1 (amended): for every run that reaches the form and whose form
exposes a non-submit navigation button (next or review) at every step,
the step loop performs exactly 10 iterations with strictly increasing
step index (it visits exactly the indices 0..9) and then returns
error:no_submit_reached. -/
theorem c1_amended (env : Env)
    (hgoto : env.gotoFault = none)
    (hentry : env.entryJS = true ∨ env.entrySelector = true)
    (hmodal : env.modalOpens = true)
    (hcontent : env.hasFormContent = true)
    (hlog : env.logWriteFault = none)
    (hnav : ∀ k, k < 10 →
      (env.steps k).nav = some NavAction.review ∨ (env.steps k).nav = some NavAction.next) :
    (apply_to_job env false).result = Except.ok "error:no_submit_reached" ∧
    (apply_to_job env false).visited = List.range 10 := by
  obtain ⟨h1, h2⟩ := stepLoop_nonsubmit env 10 0 [] (fun j _ hj => hnav j (by omega))
  have hbody : applyBody env false =
      ⟨.ok "error:no_submit_reached",
        [.gotoPage, .entryClick] ++ (stepLoop env 10 0 []).2.2.1 ++ closeFx env,
        (stepLoop env 10 0 []).2.2.2⟩ := by
    rcases hentry with he | he <;>
      simp only [applyBody, hgoto, he, hmodal, hcontent, h1] <;> simp
  unfold apply_to_job
  rw [hlog, hbody]
  refine ⟨rfl, ?_⟩
  show (stepLoop env 10 0 []).2.2.2 = List.range 10
  rw [h2, List.range_eq_range']

/-- C1, witness: the amended theorem applied to a concrete form that
always shows a Next button. -/
theorem c1_witness :
    (apply_to_job envAllNext false).result = Except.ok "error:no_submit_reached" ∧
    (apply_to_job envAllNext false).visited = List.range 10 :=
  c1_amended envAllNext rfl (Or.inl rfl) rfl rfl rfl (fun _ _ => Or.inr rfl)

/-! ## Claim C2 -/

/-- Environment of a one-step form whose only button submits, but whose
log-directory write raises an OSError in the finally block. -/
def envLogFail : Env :=
  { steps := fun _ => { nav := some .submit },
    logWriteFault := some (.exc "OSError: no space left on device") }

/-- C2 (code bug): the body of apply_to_job recovers every exception
into an error outcome, but the `finally` block performs an unguarded
`log_file.write_text`; when that write itself raises, the exception
escapes apply_to_job instead of a value being returned.  The same run
with a healthy log write returns the value `applied`. -/
theorem c2_log_write_escapes :
    (apply_to_job { envLogFail with logWriteFault := none } false).result =
      Except.ok "applied" ∧
    (apply_to_job envLogFail false).result =
      Except.error (PyExc.exc "OSError: no space left on device") :=
  ⟨rfl, rfl⟩

/-! ## Claim C6 -/

/-- The outcome vocabulary of the spec: one of the literal strings
applied, skipped, dry_run, or error: followed by a reason of at most
80 characters. -/
def validOutcome (s : String) : Prop :=
  s = "applied" ∨ s = "skipped" ∨ s = "dry_run" ∨
  ∃ r, s = "error:" ++ r ∧ pyLen r ≤ 80

theorem applyBody_ok (env : Env) (dryRun : Bool) (s : String)
    (h : (applyBody env dryRun).result = Except.ok s) :
    s = "skipped" ∨ s = "dry_run" ∨ s = "applied" ∨ s = "error:no_submit_reached" := by
  unfold applyBody at h
  rcases hg : env.gotoFault with _ | e <;> rw [hg] at h
  · by_cases h1 : env.entryJS = false ∧ env.entrySelector = false
    · rw [if_pos h1] at h
      injection h with h
      exact Or.inl h.symm
    · rw [if_neg h1] at h
      cases dryRun with
      | true =>
        rw [if_pos rfl] at h
        injection h with h
        exact Or.inr (Or.inl h.symm)
      | false =>
        rw [if_neg Bool.false_ne_true] at h
        by_cases hm : env.modalOpens = false
        · rw [if_pos hm] at h
          injection h with h
          exact Or.inl h.symm
        · rw [if_neg hm] at h
          by_cases hc : env.hasFormContent = false
          · rw [if_pos hc] at h
            injection h with h
            exact Or.inl h.symm
          · rw [if_neg hc] at h
            rcases hsl : (stepLoop env 10 0 []).1 with _ | s2 <;> rw [hsl] at h
            · injection h with h
              exact Or.inr (Or.inr (Or.inr h.symm))
            · injection h with h
              subst h
              exact Or.inr (Or.inr (Or.inl
                (stepLoop_some_applied env 10 0 [] _ hsl)))
  · exact Except.noConfusion h

/-- C6: whenever apply_to_job returns a value, that value is one of the
four outcome shapes, and in the error shape the reason has bounded
length (at most 80 characters). -/
theorem c6_outcome_shape (env : Env) (dryRun : Bool) (s : String)
    (h : (apply_to_job env dryRun).result = Except.ok s) : validOutcome s := by
  unfold apply_to_job at h
  rcases hlf : env.logWriteFault with _ | e <;> rw [hlf] at h
  · unfold handleExc at h
    cases hb : (applyBody env dryRun).result with
    | ok s0 =>
      rw [hb] at h
      rw [hb] at h
      injection h with h
      subst h
      rcases applyBody_ok env dryRun s0 hb with h | h | h | h <;> subst h
      · exact Or.inr (Or.inl rfl)
      · exact Or.inr (Or.inr (Or.inl rfl))
      · exact Or.inl rfl
      · exact Or.inr (Or.inr (Or.inr ⟨"no_submit_reached", by decide, by decide⟩))
    | error e =>
      rw [hb] at h
      cases e with
      | pwTimeout =>
        injection h with h
        subst h
        exact Or.inr (Or.inr (Or.inr ⟨"timeout", rfl, by decide⟩))
      | exc m =>
        injection h with h
        subst h
        refine Or.inr (Or.inr (Or.inr ⟨pyTake 80 m, rfl, ?_⟩))
        show (m.data.take 80).length ≤ 80
        rw [List.length_take]
        exact Nat.min_le_left _ _
  · exact Except.noConfusion h

/-- Environment of a one-step form whose only button submits. -/
def envSubmitNow : Env := { steps := fun _ => { nav := some .submit } }

/-- C6, witness: the outcome-shape theorem applied to a concrete
one-step form that submits immediately. -/
theorem c6_witness : validOutcome "applied" :=
  c6_outcome_shape envSubmitNow false "applied" rfl

/-! ## Claim C5 -/

/-- Effects that click a button somewhere on the page. -/
def isClick : Effect → Bool
  | .entryClick => true
  | .dismissClick => true
  | .navClick _ => true
  | .radioClick _ => true
  | _ => false

/-- Environment of a dry run page where the close-modal script finds a
dismiss button. -/
def envDismiss : Env := { dismissBtn := true }

/-- C5, counterexample: in dry-run mode with a valid entry point, the
engine does return dry_run before any field is modified, but
`page.evaluate(_CLOSE_MODAL_JS)` at line 431 clicks a dismiss button
when one exists — a click call beyond opening the entry point, refuting
*no field-fill or click calls beyond opening the entry point*. -/
theorem c5_counterexample :
    (apply_to_job envDismiss true).result = Except.ok "dry_run" ∧
    ((apply_to_job envDismiss true).effects.filter isClick) =
      [Effect.entryClick, Effect.dismissClick] ∧
    ((apply_to_job envDismiss true).effects.filter isClick) ≠ [Effect.entryClick] :=
  ⟨rfl, rfl, by decide⟩

/-- C5 (amended): when the dry-run flag is set and a valid entry point
is found, apply_to_job returns dry_run before any form field is
modified, performing no field-fill calls and no clicks beyond opening
the entry point and one best-effort dismiss click that closes the
modal (issued only when a dismiss button exists). -/
theorem c5_dry_run_no_fill (env : Env)
    (hgoto : env.gotoFault = none)
    (hentry : env.entryJS = true ∨ env.entrySelector = true)
    (hlog : env.logWriteFault = none) :
    apply_to_job env true =
      ⟨Except.ok "dry_run", [Effect.gotoPage, Effect.entryClick] ++ closeFx env, []⟩ ∧
    (∀ a, Effect.fieldAct a ∉ (apply_to_job env true).effects) ∧
    (apply_to_job env true).effects.filter isClick =
      [Effect.entryClick] ++ (if env.dismissBtn then [Effect.dismissClick] else []) := by
  have hbody : applyBody env true =
      ⟨Except.ok "dry_run", [Effect.gotoPage, Effect.entryClick] ++ closeFx env, []⟩ := by
    rcases hentry with he | he <;>
      simp only [applyBody, hgoto, he] <;> simp
  have happ : apply_to_job env true =
      ⟨Except.ok "dry_run", [Effect.gotoPage, Effect.entryClick] ++ closeFx env, []⟩ := by
    unfold apply_to_job
    rw [hlog, hbody]
    rfl
  refine ⟨happ, ?_, ?_⟩
  · intro a
    rw [happ]
    show Effect.fieldAct a ∉ [Effect.gotoPage, Effect.entryClick] ++ closeFx env
    unfold closeFx
    cases env.dismissBtn <;> simp
  · rw [happ]
    show ([Effect.gotoPage, Effect.entryClick] ++ closeFx env).filter isClick =
      [Effect.entryClick] ++ (if env.dismissBtn then [Effect.dismissClick] else [])
    unfold closeFx
    cases env.dismissBtn <;> rfl

/-- Environment for the C5 witness: a dry run with a valid entry point
and no dismiss button. -/
def envDryRunW : Env := {}

/-- C5, witness: the amended theorem applied to a concrete dry run. -/
theorem c5_witness :
    apply_to_job envDryRunW true =
      ⟨Except.ok "dry_run", [Effect.gotoPage, Effect.entryClick] ++ closeFx envDryRunW, []⟩ ∧
    (∀ a, Effect.fieldAct a ∉ (apply_to_job envDryRunW true).effects) ∧
    (apply_to_job envDryRunW true).effects.filter isClick =
      [Effect.entryClick] ++ (if envDryRunW.dismissBtn then [Effect.dismissClick] else []) :=
  c5_dry_run_no_fill envDryRunW rfl (Or.inl rfl) rfl

/-! ## Claim C10 -/

/-- C10: the dry-run check of line 429 runs right after the entry click
and before the modal wait and the form-content check, so a page with a
valid entry point whose modal never opens or lacks form content yields
dry_run in a dry run but skipped in a live run. -/
theorem c10_dry_run_precedes_modal_checks (env : Env)
    (hgoto : env.gotoFault = none)
    (hentry : env.entryJS = true ∨ env.entrySelector = true)
    (hlog : env.logWriteFault = none)
    (hfail : env.modalOpens = false ∨ env.hasFormContent = false) :
    (apply_to_job env true).result = Except.ok "dry_run" ∧
    (apply_to_job env false).result = Except.ok "skipped" := by
  have hent : ¬(env.entryJS = false ∧ env.entrySelector = false) := by
    rcases hentry with he | he <;> simp [he]
  have hdry : applyBody env true =
      ⟨Except.ok "dry_run", [Effect.gotoPage, Effect.entryClick] ++ closeFx env, []⟩ := by
    rcases hentry with he | he <;>
      simp only [applyBody, hgoto, he] <;> simp
  have hlive : (applyBody env false).result = Except.ok "skipped" := by
    unfold applyBody
    rw [hgoto]
    rw [if_neg hent, if_neg Bool.false_ne_true]
    by_cases hm : env.modalOpens = false
    · rw [if_pos hm]
    · rw [if_neg hm]
      have hc : env.hasFormContent = false := by
        rcases hfail with hf | hf
        · exact absurd hf hm
        · exact hf
      rw [if_pos hc]
  constructor
  · unfold apply_to_job
    rw [hlog, hdry]
    rfl
  · unfold apply_to_job
    rw [hlog]
    unfold handleExc
    rcases hb : (applyBody env false).result with e | s0
    · rw [hb] at hlive
      exact Except.noConfusion hlive
    · rw [hb] at hlive
      injection hlive with hlive
      rw [hb]
      subst hlive
      rfl

/-- Environment for the C10 witness: valid entry point but the modal
never opens. -/
def envNoModal : Env := { modalOpens := false }

/-- C10, witness: the theorem applied to a concrete page whose modal
never opens. -/
theorem c10_witness :
    (apply_to_job envNoModal true).result = Except.ok "dry_run" ∧
    (apply_to_job envNoModal false).result = Except.ok "skipped" :=
  c10_dry_run_precedes_modal_checks envNoModal rfl (Or.inl rfl) rfl (Or.inl rfl)

/-! ## Claim C3 -/

/-- C3: when the label (lowercased and stripped, as line 263 does)
contains two rule keys, at positions i and j with i before j, the
behaviour of answer_field is fully determined by the first matching
rule of the ordered table, which sits at a position no later than i:
its value is the one applied, the cache is untouched and no generative
request is issued. -/
theorem c3_first_match_wins (phone : String) (genv : GeminiEnv) (c : Cache)
    (label : String) (el : InputEl) (i j : Nat) (kvi kvj : String × String)
    (htag : el.tag = "select" ∨ el.tag = "input" ∨ el.tag = "textarea")
    (hij : i < j)
    (hgi : (COMMON_ANSWERS phone).get? i = some kvi)
    (hgj : (COMMON_ANSWERS phone).get? j = some kvj)
    (hmi : strContains (stripStr (lowerStr label)) kvi.1 = true)
    (hmj : strContains (stripStr (lowerStr label)) kvj.1 = true) :
    ∃ kv i0 r,
      i0 ≤ i ∧
      (COMMON_ANSWERS phone).get? i0 = some kv ∧
      (COMMON_ANSWERS phone).find?
        (fun p => strContains (stripStr (lowerStr label)) p.1) = some kv ∧
      applyRule kv.2 el = some r ∧
      answer_field phone genv c label el = ⟨r.1, r.2, c, false⟩ := by
  obtain ⟨y, i0, hf, hle, hg0, hp⟩ :=
    find?_of_get? (fun p => strContains (stripStr (lowerStr label)) p.1)
      (COMMON_ANSWERS phone) i kvi hgi hmi
  obtain ⟨r, har⟩ := applyRule_isSome y.2 el htag
  have hf2 : (COMMON_ANSWERS phone).find?
      (fun p => strContains (stripStr (lowerStr label)) p.1) = some (y.1, y.2) := by
    rw [Prod.mk.eta]
    exact hf
  have hloop := ruleLoop_eq_of_find? hf2 har
  have hloop2 : ruleLoop (stripStr (lowerStr label)) el (COMMON_ANSWERS phone) =
      some (r.1, r.2) := by
    rw [Prod.mk.eta]
    exact hloop
  exact ⟨y, i0, r, hle, hg0, hf, har, answer_field_of_ruleLoop_some hloop2⟩

/-- A plain text input control. -/
def elTextInput : InputEl := { tag := "input" }

/-- C3, witness: the label `Do you require visa sponsorship` contains
the key `visa` (index 8) and the key `sponsorship` (index 9); the rule
applied is the earlier one, filling `Yes, I require sponsorship`. -/
theorem c3_witness :
    ∃ kv i0 r,
      i0 ≤ 8 ∧
      (COMMON_ANSWERS "p").get? i0 = some kv ∧
      (COMMON_ANSWERS "p").find?
        (fun p => strContains
          (stripStr (lowerStr "Do you require visa sponsorship")) p.1) = some kv ∧
      applyRule kv.2 elTextInput = some r ∧
      answer_field "p" ⟨false, fun _ => none⟩ [] "Do you require visa sponsorship"
        elTextInput = ⟨r.1, r.2, [], false⟩ :=
  c3_first_match_wins "p" ⟨false, fun _ => none⟩ []
    "Do you require visa sponsorship" elTextInput 8 9
    ("visa", "Yes, I require sponsorship") ("sponsorship", "Yes")
    (Or.inr (Or.inl rfl)) (by omega) rfl rfl (by decide) (by decide)

/-! ## Claim C4 -/

/-- Generative environment whose service call always fails. -/
def genvFailing : GeminiEnv := ⟨true, fun _ => none⟩

/-- C4, counterexample: when the first generative call for a question
fails, nothing is cached (line 213 stores only truthy answers), so a
second call for the exact same question issues a second generative
request — refuting *the second call never re-issues a generative
request*. -/
theorem c4_counterexample :
    (gemini_form_answer genvFailing [] "Tell me about yourself").2.2 = true ∧
    (gemini_form_answer genvFailing
      ((gemini_form_answer genvFailing [] "Tell me about yourself").2.1)
      "Tell me about yourself").2.2 = true :=
  ⟨rfl, rfl⟩

/-- C4 (amended): if a call for a question produced a non-empty answer,
then a repeated call for the exact same question against the resulting
cache is a cache hit: it returns the same answer, leaves the cache
unchanged and issues no generative request. -/
theorem c4_cached_no_reissue (env : GeminiEnv) (c c2 : Cache) (q a : String) (b : Bool)
    (h : gemini_form_answer env c q = (some a, c2, b)) (ha : a ≠ "") :
    gemini_form_answer env c2 q = (some a, c2, false) := by
  unfold gemini_form_answer at h ⊢
  by_cases hk : env.apiKey = false
  · rw [if_pos hk] at h
    exact absurd h (by simp)
  · rw [if_neg hk] at h
    rw [if_neg hk]
    rcases hc : cacheFind q c with _ | x <;> rw [hc] at h
    · rcases ho : env.oracle q with _ | o <;> rw [ho] at h
      · exact absurd h (by simp)
      · simp only [Prod.mk.injEq, Option.some.injEq] at h
        obtain ⟨h1, h2, _⟩ := h
        subst h1
        rw [if_pos ha] at h2
        subst h2
        rw [show cacheFind q ((q, o) :: c) = some o from by simp [cacheFind]]
    · simp only [Prod.mk.injEq, Option.some.injEq] at h
      obtain ⟨h1, h2, _⟩ := h
      subst h1
      subst h2
      rw [hc]

/-- Generative environment whose service call always succeeds with a
fixed answer. -/
def genvSucceed : GeminiEnv := ⟨true, fun _ => some "I am a recent graduate."⟩

/-- C4, witness: the amended theorem applied to a first call that
succeeded and cached its answer. -/
theorem c4_witness :
    gemini_form_answer genvSucceed
      [("Why do you want this role?", "I am a recent graduate.")]
      "Why do you want this role?" =
      (some "I am a recent graduate.",
        [("Why do you want this role?", "I am a recent graduate.")], false) :=
  c4_cached_no_reissue genvSucceed [] _ "Why do you want this role?"
    "I am a recent graduate." true rfl (by decide)

/-! ## Claim C7 -/

/-- A select control with a non-empty first option. -/
def elYesNoSelect : InputEl :=
  { tag := "select", options := [⟨"Yes", "v0"⟩, ⟨"No", "v1"⟩] }

/-- C7, counterexample: for the label `Expected salary` the matched rule
value is `Open to discussion`; no option of the select qualifies, and
the fallback of line 277 is `select_option(index=1)`, which selects the
second option `No` even though the first option `Yes` is non-empty —
refuting *selects the first non-empty option*. -/
theorem c7_counterexample :
    answer_field "p" ⟨false, fun _ => none⟩ [] "Expected salary" elYesNoSelect =
      ⟨true, some (.selectIndex 1), [], false⟩ ∧
    (COMMON_ANSWERS "p").find?
      (fun kv => strContains (stripStr (lowerStr "Expected salary")) kv.1) =
      some ("expected salary", "Open to discussion") ∧
    (∀ o ∈ elYesNoSelect.options, optQualifies "Open to discussion" o = false) ∧
    elYesNoSelect.options.get? 0 = some ⟨"Yes", "v0"⟩ ∧
    ("Yes" : String) ≠ "" :=
  ⟨rfl, rfl, by decide, rfl, by decide⟩

/-- C7 (amended): when a matched rule value is applied to a select
control, answer_field selects the first option whose visible text
contains the value or vice versa (case-insensitively); if no option
qualifies, it falls back to selecting the option at index 1 (the second
option), which skips a placeholder at index 0 when one is present. -/
theorem c7_select_behavior (phone : String) (genv : GeminiEnv) (c : Cache)
    (label : String) (el : InputEl) (k v : String)
    (hsel : el.tag = "select")
    (hfind : (COMMON_ANSWERS phone).find?
      (fun p => strContains (stripStr (lowerStr label)) p.1) = some (k, v)) :
    answer_field phone genv c label el =
      ⟨true,
        some (match el.options.find? (optQualifies v) with
          | some o => FieldAction.selectValue o.value
          | none => FieldAction.selectIndex 1),
        c, false⟩ := by
  have har : applyRule v el = some (true,
      some (match el.options.find? (optQualifies v) with
        | some o => FieldAction.selectValue o.value
        | none => FieldAction.selectIndex 1)) := by
    unfold applyRule
    rw [hsel, if_pos rfl]
    cases el.options.find? (optQualifies v) with
    | none => rfl
    | some o => rfl
  exact answer_field_of_ruleLoop_some (ruleLoop_eq_of_find? hfind har)

/-- A select control whose second option text matches `Yes`. -/
def elRemoteSelect : InputEl :=
  { tag := "select",
    options := [⟨"Select an option", ""⟩, ⟨"Yes", "yes"⟩, ⟨"No", "no"⟩] }

/-- C7, witness: the amended theorem applied to the label `Are you open
to remote work` (rule `remote`, value `Yes`), where the option `Yes`
qualifies and is selected by value. -/
theorem c7_witness :
    answer_field "p" ⟨false, fun _ => none⟩ [] "Are you open to remote work"
      elRemoteSelect = ⟨true, some (.selectValue "yes"), [], false⟩ :=
  c7_select_behavior "p" ⟨false, fun _ => none⟩ [] "Are you open to remote work"
    elRemoteSelect "remote" "Yes" rfl rfl

/-! ## Claim C8 -/

/-- C8: for a labelled radio group whose group label matches a rule of
the table (the first such rule, per findRule), the step-loop radio block
clicks the first radio whose own label text overlaps the rule value
(substring in either direction), falling back to the first radio of the
group when no radio label overlaps; and inside processGroup the emitted
click is exactly that radio index. -/
theorem c8_radio_selection (phone : String) (labelText : String)
    (radios : List RadioEl) (k v : String)
    (hne : radios ≠ []) (hlab : labelText ≠ "")
    (hrule : findRule phone (lowerStr labelText) = some (k, v)) :
    handleRadios phone labelText radios = some (radioPick v radios) ∧
    (∀ i, radios.findIdx? (radioOverlap v) = some i → radioPick v radios = i) ∧
    (radios.findIdx? (radioOverlap v) = none → radioPick v radios = 0) ∧
    (∀ g : Group, g.label = some labelText → g.radios = radios →
      ∀ env : Env, env.phone = phone → ∀ c : Cache,
      (processGroup env c g).2 =
        (processInputs env labelText c g.inputs).2 ++
          [Effect.radioClick (radioPick v radios)]) := by
  have h1 : handleRadios phone labelText radios = some (radioPick v radios) := by
    unfold handleRadios
    rw [if_pos ⟨hne, hlab⟩, hrule]
  refine ⟨h1, ?_, ?_, ?_⟩
  · intro i hi
    unfold radioPick
    rw [hi]
  · intro hnone
    unfold radioPick
    rw [hnone]
  · intro g hg hr env hp c
    unfold processGroup
    rw [hg]
    simp only [Option.getD_some]
    rw [hp, hr, h1]

/-- C8, witness: label `Do you require sponsorship?` matches the rule
`sponsorship` with value `Yes`; of the radios `No` and `Yes`, the radio
at index 1 overlaps the value and is clicked. -/
theorem c8_witness :
    handleRadios "p" "Do you require sponsorship?"
      [⟨some "No"⟩, ⟨some "Yes"⟩] =
      some (radioPick "Yes" [⟨some "No"⟩, ⟨some "Yes"⟩]) ∧
    (∀ i, ([(⟨some "No"⟩ : RadioEl), ⟨some "Yes"⟩].findIdx? (radioOverlap "Yes")) = some i →
      radioPick "Yes" [⟨some "No"⟩, ⟨some "Yes"⟩] = i) ∧
    (([(⟨some "No"⟩ : RadioEl), ⟨some "Yes"⟩].findIdx? (radioOverlap "Yes")) = none →
      radioPick "Yes" [⟨some "No"⟩, ⟨some "Yes"⟩] = 0) ∧
    (∀ g : Group, g.label = some "Do you require sponsorship?" →
      g.radios = [⟨some "No"⟩, ⟨some "Yes"⟩] →
      ∀ env : Env, env.phone = "p" → ∀ c : Cache,
      (processGroup env c g).2 =
        (processInputs env "Do you require sponsorship?" c g.inputs).2 ++
          [Effect.radioClick (radioPick "Yes" [⟨some "No"⟩, ⟨some "Yes"⟩])]) :=
  c8_radio_selection "p" "Do you require sponsorship?"
    [⟨some "No"⟩, ⟨some "Yes"⟩] "sponsorship" "Yes"
    (by decide) (by decide) rfl

/-! ## Claim C9 -/

/-- C9: the generative fallback of answer_field runs only when the API
key is configured, the stripped label is non-empty with more than 3
characters, and the control is a textarea or a text-type input; and a
label whose stripped form has at most 3 characters produces no rule
match, no generative request and no write at all. -/
theorem c9_gemini_guard (phone : String) (genv : GeminiEnv) (c : Cache)
    (label : String) (el : InputEl) :
    ((answer_field phone genv c label el).geminiCalled = true →
      genv.apiKey = true ∧ stripStr label ≠ "" ∧ pyLen (stripStr label) > 3 ∧
      (el.tag = "textarea" ∨ (el.tag = "input" ∧
        (lowerStr (typeOrText el) = "text" ∨ lowerStr (typeOrText el) = "")))) ∧
    (pyLen (stripStr label) ≤ 3 →
      answer_field phone genv c label el = ⟨false, none, c, false⟩) := by
  constructor
  · intro hcall
    unfold answer_field at hcall
    rcases hrl : ruleLoop (stripStr (lowerStr label)) el (COMMON_ANSWERS phone) with _ | pair
    · rw [hrl] at hcall
      by_cases hg : genv.apiKey = true ∧ stripStr label ≠ "" ∧ pyLen (stripStr label) > 3
      · rw [if_pos hg] at hcall
        by_cases htag : el.tag = "textarea" ∨ (el.tag = "input" ∧
            (lowerStr (typeOrText el) = "text" ∨ lowerStr (typeOrText el) = ""))
        · exact ⟨hg.1, hg.2.1, hg.2.2, htag⟩
        · rw [if_neg htag] at hcall
          exact absurd hcall (by simp)
      · rw [if_neg hg] at hcall
        exact absurd hcall (by simp)
    · obtain ⟨ret, act⟩ := pair
      rw [hrl] at hcall
      exact absurd hcall (by simp)
  · intro hshort
    have hll : (stripStr (lowerStr label)).data.length ≤ 3 := by
      rw [length_strip_lower]
      exact hshort
    have hrl : ruleLoop (stripStr (lowerStr label)) el (COMMON_ANSWERS phone) = none :=
      ruleLoop_none_of_short hll
    unfold answer_field
    rw [hrl]
    rw [if_neg (fun hg => by omega)]

/-- C9, witness: the guard theorem applied to the 2-character stripped
label ` ab `, which is left unfilled with no generative request even
though a key is configured and the control is a textarea. -/
theorem c9_witness :
    answer_field "p" ⟨true, fun _ => some "generated answer"⟩ [] " ab "
      { tag := "textarea" } = ⟨false, none, [], false⟩ :=
  (c9_gemini_guard "p" ⟨true, fun _ => some "generated answer"⟩ [] " ab "
    { tag := "textarea" }).2 (by decide)

end ClawdBot
